import Mathlib

/-!
Shallow embedding of `src/main.py` of the md_convertor repository.

The program has two operations, `md2pdf` and `md2html`.  Each reads a
Markdown file, hands its text to an external conversion library
(`markdown_pdf` for PDF, `markdown` for HTML), and writes the library's
result to an output path.  We model the filesystem as a partial map from
paths to file contents, and the two external capabilities as function
parameters returning `Except ConvError` values, since the libraries are
out of scope and may fail.
-/

/-- A filesystem: a partial map from path strings to file contents.
PDF bytes are modelled as a `String` as well, since their internal
structure is out of scope. -/
def FS := String → Option String

/-- Read the file at `p`, `none` when no file exists there. -/
def FS.read (fs : FS) (p : String) : Option String := fs p

/-- Write content `c` at path `p`, creating or overwriting the file. -/
def FS.write (fs : FS) (p : String) (c : String) : FS :=
  fun q => if q = p then some c else fs q

/-- The error taxonomy of the spec: missing input, and failures of the
external rendering / transformation capabilities. -/
inductive ConvError
  | fileNotFound (path : String)
  | renderError (msg : String)
  | transformError (msg : String)
  deriving DecidableEq, Repr

/-- A `Section` of the `markdown_pdf` library: holds the markdown text
passed to `Section(md_content)` in the source. -/
structure Sec where
  text : String
  deriving DecidableEq, Repr

/-- The `MarkdownPdf` object of the `markdown_pdf` library: accumulates
the sections added with `add_section`. -/
structure MarkdownPdf where
  sections : List Sec
  deriving DecidableEq, Repr

/-- `MarkdownPdf()` constructor: no sections yet. -/
def MarkdownPdf.new : MarkdownPdf := ⟨[]⟩

/-- `pdf_obj.add_section(s)`: appends a section. -/
def MarkdownPdf.add_section (p : MarkdownPdf) (s : Sec) : MarkdownPdf :=
  ⟨p.sections ++ [s]⟩

/-- The observable outcome of one invocation: the filesystem after the
call, the lines printed to stdout, and success or the propagated error. -/
structure RunResult where
  fs : FS
  printed : List String
  outcome : Except ConvError Unit

/-- Embedding of `md2pdf` (src/main.py lines 1-13): open the input for
reading (raising `FileNotFoundError` when missing), read all of it,
build a `MarkdownPdf`, add one `Section` holding the whole content,
`save` it (the external render capability, applied to the section list),
write the result to `output_file`, then print a confirmation.  Any
failure propagates; nothing is caught. -/
def md2pdf (render : List Sec → Except ConvError String) (fs : FS)
    (md_file output_file : String) : RunResult :=
  match fs.read md_file with
  | none => ⟨fs, [], .error (.fileNotFound md_file)⟩
  | some md_content =>
    let pdf_obj := MarkdownPdf.new
    let pdf_obj := pdf_obj.add_section ⟨md_content⟩
    match render pdf_obj.sections with
    | .error e => ⟨fs, [], .error e⟩
    | .ok pdfBytes =>
      ⟨fs.write output_file pdfBytes,
       ["PDF generated successfully as " ++ output_file], .ok ()⟩

/-- Embedding of `md2html` (src/main.py lines 16-25): open the input for
reading (raising `FileNotFoundError` when missing), read all of it,
apply `markdown.markdown` (the external transform capability), and only
then open the output path for writing and write the HTML text.  Nothing
is printed and nothing is caught. -/
def md2html (transform : String → Except ConvError String) (fs : FS)
    (md_file output_file : String) : RunResult :=
  match fs.read md_file with
  | none => ⟨fs, [], .error (.fileNotFound md_file)⟩
  | some markdown_text =>
    match transform markdown_text with
    | .error e => ⟨fs, [], .error e⟩
    | .ok html_output => ⟨fs.write output_file html_output, [], .ok ()⟩

/-- Boolean substring test: does `needle` occur contiguously in `hay`? -/
def segIn (needle hay : List Char) : Bool :=
  match hay with
  | [] => needle.isEmpty
  | _ :: t => needle.isPrefixOf hay || segIn needle t

/-- String-level substring test. -/
def strContains (hay needle : String) : Bool :=
  segIn needle.data hay.data

/-! ## Concrete capabilities and filesystems used by witnesses -/

/-- A one-file filesystem holding a small Markdown document. -/
def fsEx : FS := fun p => if p = "in.md" then some "# x" else none

/-- A concrete always-succeeding HTML transform capability. -/
def trOk : String → Except ConvError String :=
  fun s => .ok ("<p>" ++ s ++ "</p>")

/-- A concrete always-failing HTML transform capability. -/
def trFail : String → Except ConvError String :=
  fun _ => .error (.transformError "boom")

/-- A concrete always-succeeding PDF render capability. -/
def rdOk : List Sec → Except ConvError String :=
  fun _ => .ok "%PDF-1.4"

/-- A concrete always-failing PDF render capability. -/
def rdFail : List Sec → Except ConvError String :=
  fun _ => .error (.renderError "boom")

/-! ## Claims -/

/-- C1: for an existing readable input, `md2pdf` reads the file content as
one document, wraps it in exactly one section, submits that single-section
list to the external render capability, and writes the capability output
to the output path, creating or overwriting the file there. -/
theorem md2pdf_single_section_write
    (render : List Sec → Except ConvError String) (fs : FS)
    (i o text pdf : String)
    (hread : fs.read i = some text)
    (hrender : render [⟨text⟩] = .ok pdf) :
    (MarkdownPdf.new.add_section ⟨text⟩).sections = [⟨text⟩] ∧
    (md2pdf render fs i o).fs = fs.write o pdf ∧
    (md2pdf render fs i o).fs.read o = some pdf ∧
    (md2pdf render fs i o).outcome = .ok () := by
  have hr : fs i = some text := hread
  refine ⟨by simp [MarkdownPdf.new, MarkdownPdf.add_section], ?_, ?_, ?_⟩ <;>
    simp [md2pdf, hr, MarkdownPdf.new, MarkdownPdf.add_section, hrender,
      FS.write, FS.read]

/-- C1 witness at a concrete filesystem and render capability. -/
theorem md2pdf_single_section_write_witness :
    (md2pdf rdOk fsEx "in.md" "out.pdf").fs.read "out.pdf" = some "%PDF-1.4" :=
  (md2pdf_single_section_write rdOk fsEx "in.md" "out.pdf" "# x" "%PDF-1.4"
    (by decide) rfl).2.2.1

/-- C2: on a valid input, the file `md2html` writes at the output path is
exactly the external transformation of the input text, with no wrapping
document shell added by the program. -/
theorem md2html_exact_transform
    (transform : String → Except ConvError String) (fs : FS)
    (i o text html : String)
    (hread : fs.read i = some text)
    (htr : transform text = .ok html) :
    (md2html transform fs i o).fs.read o = some html ∧
    (md2html transform fs i o).outcome = .ok () := by
  have hr : fs i = some text := hread
  constructor <;> simp [md2html, hr, htr, FS.write, FS.read]

/-- C2 witness at a concrete filesystem and transform capability. -/
theorem md2html_exact_transform_witness :
    (md2html trOk fsEx "in.md" "out.html").fs.read "out.html" =
      some "<p># x</p>" :=
  (md2html_exact_transform trOk fsEx "in.md" "out.html" "# x" "<p># x</p>"
    (by decide) rfl).1

/-- C3: when the input path holds no file, both operations fail with the
file-not-found error and leave the filesystem unchanged, so no output
file is created or modified. -/
theorem missing_input_fails_no_output
    (render : List Sec → Except ConvError String)
    (transform : String → Except ConvError String)
    (fs : FS) (i o : String)
    (hmiss : fs.read i = none) :
    (md2pdf render fs i o).outcome = .error (.fileNotFound i) ∧
    (md2html transform fs i o).outcome = .error (.fileNotFound i) ∧
    (md2pdf render fs i o).fs = fs ∧
    (md2html transform fs i o).fs = fs := by
  have hm : fs i = none := hmiss
  refine ⟨?_, ?_, ?_, ?_⟩ <;> simp [md2pdf, md2html, FS.read, hm]

/-- C3 witness at a concrete empty filesystem. -/
theorem missing_input_fails_no_output_witness :
    (md2pdf rdOk (fun _ => none) "gone.md" "out.pdf").outcome =
      .error (.fileNotFound "gone.md") ∧
    (md2html trOk (fun _ => none) "gone.md" "out.html").outcome =
      .error (.fileNotFound "gone.md") :=
  ⟨(missing_input_fails_no_output rdOk trOk (fun _ => none) "gone.md"
      "out.pdf" rfl).1,
   (missing_input_fails_no_output rdOk trOk (fun _ => none) "gone.md"
      "out.html" rfl).2.1⟩

/-- C4: `md2html` is idempotent.  With the input file content fixed
across runs (the hypothesis on the filesystem after the first run), both
the first and the second run leave the same bytes at the output path. -/
theorem md2html_idempotent
    (transform : String → Except ConvError String) (fs : FS)
    (i o text html : String)
    (hread : fs.read i = some text)
    (htr : transform text = .ok html)
    (hfixed : (md2html transform fs i o).fs.read i = some text) :
    (md2html transform fs i o).fs.read o = some html ∧
    (md2html transform (md2html transform fs i o).fs i o).fs.read o =
      some html := by
  have hr : fs i = some text := hread
  have h1 : (md2html transform fs i o).fs = fs.write o html := by
    simp [md2html, FS.read, hr, htr]
  rw [h1] at hfixed ⊢
  have hf : fs.write o html i = some text := hfixed
  refine ⟨by simp [FS.write, FS.read], ?_⟩
  simp only [md2html, FS.read, hf, htr]
  simp [FS.write, FS.read]

/-- C4 witness: two consecutive runs on a concrete filesystem, with the
input content indeed fixed across them. -/
theorem md2html_idempotent_witness :
    (md2html trOk fsEx "in.md" "out.html").fs.read "out.html" =
      some "<p># x</p>" ∧
    (md2html trOk (md2html trOk fsEx "in.md" "out.html").fs
        "in.md" "out.html").fs.read "out.html" = some "<p># x</p>" :=
  md2html_idempotent trOk fsEx "in.md" "out.html" "# x" "<p># x</p>"
    (by decide) rfl (by decide)

/-- C5: no failure is caught or recovered locally: a missing input file,
a failing render capability and a failing transform capability each
propagate their error unchanged to the caller of `md2pdf` / `md2html`. -/
theorem errors_propagate_uncaught
    (render : List Sec → Except ConvError String)
    (transform : String → Except ConvError String)
    (fs : FS) (i o text : String) (e : ConvError)
    (hread : fs.read i = some text) :
    (render [⟨text⟩] = .error e →
      (md2pdf render fs i o).outcome = .error e) ∧
    (transform text = .error e →
      (md2html transform fs i o).outcome = .error e) ∧
    (∀ fs2 : FS, fs2.read i = none →
      (md2pdf render fs2 i o).outcome = .error (.fileNotFound i) ∧
      (md2html transform fs2 i o).outcome = .error (.fileNotFound i)) := by
  have hr : fs i = some text := hread
  refine ⟨fun he => ?_, fun he => ?_, fun fs2 hm => ?_⟩
  · simp [md2pdf, FS.read, hr, MarkdownPdf.new, MarkdownPdf.add_section, he]
  · simp [md2html, FS.read, hr, he]
  · have hm2 : fs2 i = none := hm
    exact ⟨by simp [md2pdf, FS.read, hm2], by simp [md2html, FS.read, hm2]⟩

/-- C5 witness: concrete failing capabilities and a concrete missing
input, each propagating its exact error. -/
theorem errors_propagate_uncaught_witness :
    (md2pdf rdFail fsEx "in.md" "out.pdf").outcome =
      .error (.renderError "boom") ∧
    (md2html trFail fsEx "in.md" "out.html").outcome =
      .error (.transformError "boom") ∧
    (md2pdf rdFail (fun _ => none) "in.md" "out.pdf").outcome =
      .error (.fileNotFound "in.md") := by
  have h := errors_propagate_uncaught rdFail trFail fsEx "in.md" "out.pdf"
    "# x" (.renderError "boom") (by decide)
  have h2 := errors_propagate_uncaught rdFail trFail fsEx "in.md" "out.html"
    "# x" (.transformError "boom") (by decide)
  exact ⟨h.1 rfl, h2.2.1 rfl,
    (h.2.2 (fun _ => none) rfl).1⟩

/-- C6: on success, `md2pdf` prints exactly one confirmation line that
references the output path (the path is a suffix of the message), while
`md2html` prints nothing at all. -/
theorem success_message_asymmetry
    (render : List Sec → Except ConvError String)
    (transform : String → Except ConvError String)
    (fs : FS) (i o text pdf html : String)
    (hread : fs.read i = some text)
    (hrender : render [⟨text⟩] = .ok pdf)
    (htr : transform text = .ok html) :
    (md2pdf render fs i o).printed =
      ["PDF generated successfully as " ++ o] ∧
    (∃ head, "PDF generated successfully as " ++ o = head ++ o) ∧
    (md2html transform fs i o).printed = [] := by
  have hr : fs i = some text := hread
  refine ⟨?_, ⟨"PDF generated successfully as ", rfl⟩, ?_⟩
  · simp [md2pdf, FS.read, hr, MarkdownPdf.new, MarkdownPdf.add_section,
      hrender]
  · simp [md2html, FS.read, hr, htr]

/-- C6 witness at concrete capabilities. -/
theorem success_message_asymmetry_witness :
    (md2pdf rdOk fsEx "in.md" "out.pdf").printed =
      ["PDF generated successfully as out.pdf"] ∧
    (md2html trOk fsEx "in.md" "out.html").printed = [] := by
  have h := success_message_asymmetry rdOk trOk fsEx "in.md" "out.pdf"
    "# x" "%PDF-1.4" "<p># x</p>" (by decide) rfl rfl
  have h2 := success_message_asymmetry rdOk trOk fsEx "in.md" "out.html"
    "# x" "%PDF-1.4" "<p># x</p>" (by decide) rfl rfl
  exact ⟨h.1, h2.2.2⟩

/-- C7: for the input content consisting of a level-1 heading line and a
body paragraph, the output file of `md2html` is the external
transformation of that content, so it contains the h1 element and the p
element whenever the transformation does (which the Python-Markdown
library guarantees for this input). -/
theorem md2html_title_body
    (transform : String → Except ConvError String) (fs : FS)
    (i o html : String)
    (hread : fs.read i = some "# Title\n\nBody text.")
    (htr : transform "# Title\n\nBody text." = .ok html)
    (hh1 : strContains html "<h1>Title</h1>" = true)
    (hp : strContains html "<p>Body text.</p>" = true) :
    ∃ out, (md2html transform fs i o).fs.read o = some out ∧
      strContains out "<h1>Title</h1>" = true ∧
      strContains out "<p>Body text.</p>" = true := by
  have hr : fs i = some "# Title\n\nBody text." := hread
  refine ⟨html, ?_, hh1, hp⟩
  simp [md2html, FS.read, hr, htr, FS.write]

/-- C7 witness: a concrete transform modelling Python-Markdown output on
this exact input. -/
theorem md2html_title_body_witness :
    ∃ out,
      (md2html (fun _ => .ok "<h1>Title</h1>\n<p>Body text.</p>")
        (fun p => if p = "t.md" then some "# Title\n\nBody text." else none)
        "t.md" "t.html").fs.read "t.html" = some out ∧
      strContains out "<h1>Title</h1>" = true ∧
      strContains out "<p>Body text.</p>" = true :=
  md2html_title_body (fun _ => .ok "<h1>Title</h1>\n<p>Body text.</p>")
    (fun p => if p = "t.md" then some "# Title\n\nBody text." else none)
    "t.md" "t.html" "<h1>Title</h1>\n<p>Body text.</p>"
    (by decide) rfl (by decide) (by decide)

/-- C8: `md2html` opens the output for writing only after the transform
has succeeded: when the transform fails, the filesystem is exactly as it
was before the call, so the output path is neither created nor
truncated. -/
theorem md2html_no_write_on_transform_failure
    (transform : String → Except ConvError String) (fs : FS)
    (i o text : String) (e : ConvError)
    (hread : fs.read i = some text)
    (htr : transform text = .error e) :
    (md2html transform fs i o).fs = fs ∧
    (md2html transform fs i o).fs.read o = fs.read o ∧
    (md2html transform fs i o).outcome = .error e := by
  have hr : fs i = some text := hread
  refine ⟨?_, ?_, ?_⟩ <;> simp [md2html, FS.read, hr, htr]

/-- C8 witness: a concrete failing transform leaves a pre-existing output
file untouched. -/
theorem md2html_no_write_on_transform_failure_witness :
    (md2html trFail fsEx "in.md" "out.html").fs.read "out.html" =
      fsEx.read "out.html" ∧
    (md2html trFail fsEx "in.md" "out.html").outcome =
      .error (.transformError "boom") :=
  ⟨(md2html_no_write_on_transform_failure trFail fsEx "in.md" "out.html"
      "# x" (.transformError "boom") (by decide) rfl).2.1,
   (md2html_no_write_on_transform_failure trFail fsEx "in.md" "out.html"
      "# x" (.transformError "boom") (by decide) rfl).2.2⟩

/-- A one-file filesystem for the C9 counterexample. -/
def fsC9 : FS := fun p => if p = "a.md" then some "# t" else none

/-- A concrete transform for the C9 counterexample. -/
def trC9 : String → Except ConvError String :=
  fun _ => .ok "<h1>t</h1>"

/-- C9 counterexample: with outputPath equal to inputPath, `md2html`
succeeds and the content of the input file IS changed by the operation,
refuting the claim that every invocation leaves the input file content
unchanged. -/
theorem input_file_changed_when_paths_equal :
    (md2html trC9 fsC9 "a.md" "a.md").outcome = .ok () ∧
    fsC9.read "a.md" = some "# t" ∧
    (md2html trC9 fsC9 "a.md" "a.md").fs.read "a.md" = some "<h1>t</h1>" ∧
    (md2html trC9 fsC9 "a.md" "a.md").fs.read "a.md" ≠ fsC9.read "a.md" := by
  exact ⟨rfl, rfl, rfl, by decide⟩

/-- C9 amended: both operations open the input only for reading, so
whenever the output path differs from the input path, the content of the
input file is unchanged by the operation, successful or failed. -/
theorem input_unchanged_when_paths_differ
    (render : List Sec → Except ConvError String)
    (transform : String → Except ConvError String)
    (fs : FS) (i o : String)
    (hne : i ≠ o) :
    (md2pdf render fs i o).fs.read i = fs.read i ∧
    (md2html transform fs i o).fs.read i = fs.read i := by
  constructor
  · cases hr : fs i with
    | none => simp [md2pdf, FS.read, hr]
    | some text =>
      cases he : render [⟨text⟩] with
      | error e =>
        simp [md2pdf, FS.read, hr, MarkdownPdf.new, MarkdownPdf.add_section,
          he]
      | ok pdf =>
        simp [md2pdf, FS.read, hr, MarkdownPdf.new, MarkdownPdf.add_section,
          he, FS.write, hne]
  · cases hr : fs i with
    | none => simp [md2html, FS.read, hr]
    | some text =>
      cases he : transform text with
      | error e => simp [md2html, FS.read, hr, he]
      | ok html => simp [md2html, FS.read, hr, he, FS.write, hne]

/-- C9 amended witness: with distinct concrete input and output paths,
both operations leave the input file content unchanged. -/
theorem input_unchanged_when_paths_differ_witness :
    (md2pdf rdOk fsEx "in.md" "out.pdf").fs.read "in.md" =
      fsEx.read "in.md" ∧
    (md2html trOk fsEx "in.md" "out.html").fs.read "in.md" =
      fsEx.read "in.md" :=
  ⟨(input_unchanged_when_paths_differ rdOk trOk fsEx "in.md" "out.pdf"
      (by decide)).1,
   (input_unchanged_when_paths_differ rdOk trOk fsEx "in.md" "out.html"
      (by decide)).2⟩

/-- C10: on an existing input file whose content is empty, `md2html`
succeeds and writes an empty output file, the transform of empty input
being the empty string (as the Python-Markdown library guarantees). -/
theorem md2html_empty_input_empty_output
    (transform : String → Except ConvError String) (fs : FS)
    (i o : String)
    (hread : fs.read i = some "")
    (htr : transform "" = .ok "") :
    (md2html transform fs i o).outcome = .ok () ∧
    (md2html transform fs i o).fs.read o = some "" := by
  have hr : fs i = some "" := hread
  constructor <;> simp [md2html, FS.read, hr, htr, FS.write]

/-- C10 witness: a concrete empty input file and a transform sending the
empty string to the empty string. -/
theorem md2html_empty_input_empty_output_witness :
    (md2html (fun s => .ok s) (fun p => if p = "e.md" then some "" else none)
      "e.md" "e.html").fs.read "e.html" = some "" :=
  (md2html_empty_input_empty_output (fun s => .ok s)
    (fun p => if p = "e.md" then some "" else none) "e.md" "e.html"
    (by decide) rfl).2
